import Mathlib

/-!
Verification of the carbon-footprint calculator (src/app.py).

The core of the application is embedded shallowly:
* real-valued quantities are modelled as rationals (the Python floats are
  used only for sums and products of table constants and user inputs, and
  every claim is stated "exact to floating-point tolerance");
* calendar dates are modelled as proleptic-Gregorian ordinals (ℤ), the
  representation `datetime.date.toordinal` uses: day 1 is 0001-01-01,
  which is a Monday, so `date.weekday()` is `(ordinal - 1) % 7`;
* the sqlite tables are modelled as lists of rows;
* nullable text columns are modelled as `Option String`.
-/

namespace CarbonApp

/-- EMISSION_FACTORS table from app.py (kg CO₂ per km). -/
def EMISSION_FACTORS : List (String × ℚ) :=
  [("Car (Petrol)", 192/1000),
   ("Car (Diesel)", 171/1000),
   ("Motorbike", 103/1000),
   ("Matatu/Bus", 105/1000),
   ("Bicycle/Walking", 0)]

/-- ELECTRICITY_FACTOR constant from app.py (kg CO₂ per kWh). -/
def ELECTRICITY_FACTOR : ℚ := 18/100

/-- LPG_FACTOR constant from app.py (kg CO₂ per kg). -/
def LPG_FACTOR : ℚ := 3

/-- The result record of compute_emissions. -/
structure Emissions where
  transport_emission : ℚ
  electricity_emission : ℚ
  lpg_emission : ℚ
  total_emission : ℚ
  deriving Repr, DecidableEq

/-- EMISSION_FACTORS.get(transport_mode, 0.0): table lookup with default 0. -/
def factorOf (transport_mode : String) : ℚ :=
  (EMISSION_FACTORS.lookup transport_mode).getD 0

/-- compute_emissions from app.py. -/
def compute_emissions (distance_km : ℚ) (transport_mode : String)
    (electricity_kwh : ℚ) (lpg_kg : ℚ) : Emissions :=
  let tf := factorOf transport_mode
  let t_e := distance_km * tf
  let e_e := electricity_kwh * ELECTRICITY_FACTOR
  let l_e := lpg_kg * LPG_FACTOR
  { transport_emission := t_e,
    electricity_emission := e_e,
    lpg_emission := l_e,
    total_emission := t_e + e_e + l_e }

/-- A row of the daily_emissions table.  Dates are Python date ordinals. -/
structure Entry where
  user_id : Option String
  aliasName : Option String
  date : ℤ
  transport_mode : String
  distance : ℚ
  electricity : ℚ
  lpg : ℚ
  transport_emission : ℚ
  electricity_emission : ℚ
  lpg_emission : ℚ
  total_emission : ℚ
  notes : String
  deriving Repr, DecidableEq

/-- The record built by the manual "Save entry" path of page_enter_data:
every derived field is taken from compute_emissions.  The alias text input
always yields a string (possibly empty). -/
def mkManualEntry (user_id : Option String) (aliasText : String) (date : ℤ)
    (transport_mode : String) (distance electricity lpg : ℚ)
    (notes : String) : Entry :=
  let em := compute_emissions distance transport_mode electricity lpg
  { user_id := user_id,
    aliasName := some aliasText,
    date := date,
    transport_mode := transport_mode,
    distance := distance,
    electricity := electricity,
    lpg := lpg,
    transport_emission := em.transport_emission,
    electricity_emission := em.electricity_emission,
    lpg_emission := em.lpg_emission,
    total_emission := em.total_emission,
    notes := notes }

/-- The record built for one accepted CSV row of page_enter_data: the alias
cell may be missing/null, the derived fields again come from
compute_emissions. -/
def mkCsvEntry (user_id : Option String) (aliasCell : Option String) (date : ℤ)
    (transport_mode : String) (distance electricity lpg : ℚ)
    (notes : String) : Entry :=
  let em := compute_emissions distance transport_mode electricity lpg
  { user_id := user_id,
    aliasName := aliasCell,
    date := date,
    transport_mode := transport_mode,
    distance := distance,
    electricity := electricity,
    lpg := lpg,
    transport_emission := em.transport_emission,
    electricity_emission := em.electricity_emission,
    lpg_emission := em.lpg_emission,
    total_emission := em.total_emission,
    notes := notes }

/-- Compliance states of the weekly-goal check. -/
inductive GoalStatus where
  | WITHIN_TARGET : GoalStatus
  | EXCEEDED : GoalStatus
  deriving Repr, DecidableEq

/-- The goal check of page_goals_and_alerts:
if weekly_total > target it reports the exceeded alert, else the
within-target message. -/
def evalGoal (weekly_total target : ℚ) : GoalStatus :=
  if weekly_total > target then .EXCEEDED else .WITHIN_TARGET

/-- The target shown and used by page_goals_and_alerts:
`value=current or 20.0` in Python takes 20.0 both when current is None and
when current is 0.0 (any falsy value). -/
def displayedTarget (current : Option ℚ) : ℚ :=
  match current with
  | none => 20
  | some c => if c = 0 then 20 else c

end CarbonApp

namespace CarbonApp

/-- C1: for nonnegative inputs and a transport mode present in
EMISSION_FACTORS with factor f, compute_emissions returns
transport = d·f, electricity = e·ELECTRICITY_FACTOR, lpg = l·LPG_FACTOR,
and total equal to their sum. -/
theorem compute_emissions_known_mode (d e l : ℚ) (m : String) (f : ℚ)
    (hd : 0 ≤ d) (he : 0 ≤ e) (hl : 0 ≤ l)
    (hm : EMISSION_FACTORS.lookup m = some f) :
    (compute_emissions d m e l).transport_emission = d * f ∧
    (compute_emissions d m e l).electricity_emission = e * ELECTRICITY_FACTOR ∧
    (compute_emissions d m e l).lpg_emission = l * LPG_FACTOR ∧
    (compute_emissions d m e l).total_emission =
      (compute_emissions d m e l).transport_emission +
      (compute_emissions d m e l).electricity_emission +
      (compute_emissions d m e l).lpg_emission := by
  simp [compute_emissions, factorOf, hm]

/-- Witness for C1 at d = 10, e = 5, l = 2, mode "Car (Petrol)". -/
theorem compute_emissions_known_mode_witness :
    (compute_emissions 10 "Car (Petrol)" 5 2).transport_emission = 10 * (192/1000) ∧
    (compute_emissions 10 "Car (Petrol)" 5 2).electricity_emission = 5 * ELECTRICITY_FACTOR ∧
    (compute_emissions 10 "Car (Petrol)" 5 2).lpg_emission = 2 * LPG_FACTOR ∧
    (compute_emissions 10 "Car (Petrol)" 5 2).total_emission =
      (compute_emissions 10 "Car (Petrol)" 5 2).transport_emission +
      (compute_emissions 10 "Car (Petrol)" 5 2).electricity_emission +
      (compute_emissions 10 "Car (Petrol)" 5 2).lpg_emission :=
  compute_emissions_known_mode 10 5 2 "Car (Petrol)" (192/1000)
    (by norm_num) (by norm_num) (by norm_num) (by rfl)

/-- C2: every entry created by the system — manual save or CSV import —
stores total_emission equal to the sum of its three component emissions. -/
theorem entry_total_invariant (u : Option String) (a : String)
    (a? : Option String) (dt : ℤ) (m : String) (d e l : ℚ) (n : String) :
    (mkManualEntry u a dt m d e l n).total_emission =
      (mkManualEntry u a dt m d e l n).transport_emission +
      (mkManualEntry u a dt m d e l n).electricity_emission +
      (mkManualEntry u a dt m d e l n).lpg_emission ∧
    (mkCsvEntry u a? dt m d e l n).total_emission =
      (mkCsvEntry u a? dt m d e l n).transport_emission +
      (mkCsvEntry u a? dt m d e l n).electricity_emission +
      (mkCsvEntry u a? dt m d e l n).lpg_emission := by
  constructor <;> simp [mkManualEntry, mkCsvEntry, compute_emissions]

/-- C7: for a transport mode absent from EMISSION_FACTORS, the transport
emission is 0 whatever the distance. -/
theorem compute_emissions_unknown_mode (d e l : ℚ) (m : String)
    (hm : EMISSION_FACTORS.lookup m = none) :
    (compute_emissions d m e l).transport_emission = 0 := by
  simp [compute_emissions, factorOf, hm]

/-- Witness for C7 at mode "Rocket", distance 1000. -/
theorem compute_emissions_unknown_mode_witness :
    (compute_emissions 1000 "Rocket" 4 7).transport_emission = 0 :=
  compute_emissions_unknown_mode 1000 4 7 "Rocket" (by rfl)

/-- C3: the goal check reports EXCEEDED iff the weekly total strictly
exceeds the target, and reports WITHIN_TARGET at equality. -/
theorem evalGoal_exceeded_iff (w t : ℚ) :
    (evalGoal w t = .EXCEEDED ↔ t < w) ∧ evalGoal t t = .WITHIN_TARGET := by
  constructor
  · unfold evalGoal
    by_cases h : t < w <;> simp [h]
  · simp [evalGoal]

/-- C10: a stored weekly target of exactly 0 is presented and evaluated as
the default 20, identically to an absent target. -/
theorem zero_target_reads_as_default (w : ℚ) :
    displayedTarget (some 0) = 20 ∧
    displayedTarget (some 0) = displayedTarget none ∧
    evalGoal w (displayedTarget (some 0)) = evalGoal w 20 := by
  refine ⟨by simp [displayedTarget], by simp [displayedTarget], ?_⟩
  simp [displayedTarget]

end CarbonApp

namespace CarbonApp

/-- date.weekday() of a Python date ordinal: Monday is 0 (ordinal 1,
0001-01-01, is a Monday). -/
def weekday (d : ℤ) : ℤ := (d - 1) % 7

/-- start_week = today - timedelta(days=today.weekday()) in
page_goals_and_alerts. -/
def startWeek (today : ℤ) : ℤ := today - weekday today

/-- The goal-page weekly filter
(df['date'] >= start_week) & (df['date'] <= today). -/
def inGoalWindow (today : ℤ) (e : Entry) : Bool :=
  decide (startWeek today ≤ e.date) && decide (e.date ≤ today)

/-- weekly_total = week_df['total_emission'].sum() over the filtered
frame. -/
def weeklyTotal (today : ℤ) (entries : List Entry) : ℚ :=
  ((entries.filter (inGoalWindow today)).map Entry.total_emission).sum

lemma sum_map_filter_eq (p : Entry → Bool) (f : Entry → ℚ) (l : List Entry) :
    ((l.filter p).map f).sum = (l.map (fun x => if p x then f x else 0)).sum := by
  induction l with
  | nil => rfl
  | cons a l ih =>
    by_cases hp : p a
    · simp [List.filter_cons, hp, ih]
    · simp [List.filter_cons, hp, ih]

/-- Entries used as concrete witnesses below. -/
def sampleIn : Entry :=
  ⟨none, some "A", 9, "Car (Petrol)", 0, 0, 0, 0, 0, 0, 5, ""⟩

/-- An entry dated 8 days before the witness "today" (ordinal 10). -/
def sampleOut : Entry :=
  ⟨none, some "B", 2, "Car (Petrol)", 0, 0, 0, 0, 0, 0, 7, ""⟩

/-- C4: the weekly total sums total_emission over exactly the entries whose
date lies in the closed interval [today - weekday(today), today]; an entry
dated outside that interval contributes nothing. -/
theorem weeklyTotal_window (today : ℤ) (entries : List Entry) (e : Entry)
    (he : ¬ (startWeek today ≤ e.date ∧ e.date ≤ today)) :
    weeklyTotal today entries =
      (entries.map (fun x =>
        if startWeek today ≤ x.date ∧ x.date ≤ today
        then x.total_emission else 0)).sum ∧
    weeklyTotal today (e :: entries) = weeklyTotal today entries := by
  have hb : inGoalWindow today e = false := by
    rw [Bool.eq_false_iff]
    simp only [ne_eq, inGoalWindow, Bool.and_eq_true, decide_eq_true_eq]
    exact he
  constructor
  · rw [weeklyTotal, sum_map_filter_eq]
    simp only [inGoalWindow, Bool.and_eq_true, decide_eq_true_eq]
  · simp [weeklyTotal, List.filter_cons, hb]

/-- Witness for C4: today is ordinal 10 (a Wednesday), sampleIn is dated
inside the week, sampleOut is dated exactly 8 days before today. -/
theorem weeklyTotal_window_witness :
    ¬ (startWeek 10 ≤ sampleOut.date ∧ sampleOut.date ≤ 10) ∧
    (weeklyTotal 10 [sampleIn] =
      ([sampleIn].map (fun x =>
        if startWeek 10 ≤ x.date ∧ x.date ≤ 10
        then x.total_emission else 0)).sum ∧
    weeklyTotal 10 (sampleOut :: [sampleIn]) = weeklyTotal 10 [sampleIn]) :=
  ⟨by decide, weeklyTotal_window 10 [sampleIn] sampleOut (by decide)⟩

end CarbonApp

namespace CarbonApp

/-- The leaderboard window filter df_all['date'] >= today - 7. -/
def inLbWindow (today : ℤ) (e : Entry) : Bool :=
  decide (today - 7 ≤ e.date)

/-- The group keys of week.groupby('alias'): pandas groups by the distinct
alias values and, by default (dropna=True), drops rows whose key is null. -/
def lbKeys (week : List Entry) : List (Option String) :=
  ((week.map Entry.aliasName).filter Option.isSome).dedup

/-- Summed total_emission of one alias group. -/
def groupSum (week : List Entry) (a : Option String) : ℚ :=
  ((week.filter (fun e => e.aliasName == a)).map Entry.total_emission).sum

/-- week.groupby('alias').agg(\x7b'total_emission':'sum'\x7d). -/
def lbGroups (today : ℤ) (entries : List Entry) : List (Option String × ℚ) :=
  let week := entries.filter (inLbWindow today)
  (lbKeys week).map (fun a => (a, groupSum week a))

/-- agg['alias'] = agg['alias'].fillna('Anonymous'). -/
def fillAnonymous (l : List (Option String × ℚ)) : List (String × ℚ) :=
  l.map (fun p => (p.1.getD "Anonymous", p.2))

/-- agg.sort_values('total_emission') followed by agg.head(10). -/
def leaderboard (today : ℤ) (entries : List Entry) : List (String × ℚ) :=
  ((fillAnonymous (lbGroups today entries)).mergeSort
    (fun p q => decide (p.2 ≤ q.2))).take 10

lemma lbGroups_spec (today : ℤ) (entries : List Entry) :
    ∀ q ∈ lbGroups today entries,
      q.1.isSome = true ∧
      q.2 = groupSum (entries.filter (inLbWindow today)) q.1 := by
  intro q hq
  simp only [lbGroups, List.mem_map] at hq
  obtain ⟨a, ha, rfl⟩ := hq
  refine ⟨?_, rfl⟩
  have ha' := List.mem_dedup.mp ha
  exact List.of_mem_filter ha'

/-- C5: the leaderboard is insensitive to entries outside the trailing
7-day window (in particular one dated exactly 8 days ago), is sorted
ascending by summed total_emission, has at most 10 rows, and each row
carries the sum of total_emission of its alias group over the in-window
entries. -/
theorem leaderboard_spec (today : ℤ) (entries : List Entry) (e : Entry)
    (h8 : e.date = today - 8) :
    leaderboard today entries =
      leaderboard today (entries.filter (inLbWindow today)) ∧
    leaderboard today (e :: entries) = leaderboard today entries ∧
    (leaderboard today entries).Pairwise (fun p q => p.2 ≤ q.2) ∧
    (leaderboard today entries).length ≤ 10 ∧
    ∀ p ∈ leaderboard today entries,
      p.2 = groupSum (entries.filter (inLbWindow today)) (some p.1) := by
  have hff : (entries.filter (inLbWindow today)).filter (inLbWindow today)
      = entries.filter (inLbWindow today) := by
    rw [List.filter_filter]
    simp
  have hbe : inLbWindow today e = false := by
    simp only [inLbWindow, h8, decide_eq_false_iff_not]
    omega
  refine ⟨?_, ?_, ?_, ?_, ?_⟩
  · simp [leaderboard, lbGroups, hff]
  · simp [leaderboard, lbGroups, List.filter_cons, hbe]
  · have hs : (List.mergeSort (fillAnonymous (lbGroups today entries))
        (fun p q => decide (p.2 ≤ q.2))).Pairwise
        (fun p q => decide (p.2 ≤ q.2) = true) := by
      apply List.sorted_mergeSort
      · intro a b c hab hbc
        simp only [decide_eq_true_eq] at *
        exact le_trans hab hbc
      · intro a b
        simpa using le_total a.2 b.2
    have hs' : (List.mergeSort (fillAnonymous (lbGroups today entries))
        (fun p q => decide (p.2 ≤ q.2))).Pairwise
        (fun p q : String × ℚ => p.2 ≤ q.2) := by
      refine hs.imp ?_
      intro a b hab
      simp at hab
      exact hab
    exact hs'.sublist (List.take_sublist 10 _)
  · simpa [leaderboard] using List.length_take_le 10 _
  · intro p hp
    have hp1 : p ∈ List.mergeSort (fillAnonymous (lbGroups today entries))
        (fun p q => decide (p.2 ≤ q.2)) :=
      List.mem_of_mem_take hp
    have hp2 : p ∈ fillAnonymous (lbGroups today entries) :=
      List.mem_mergeSort.mp hp1
    simp only [fillAnonymous, List.mem_map] at hp2
    obtain ⟨q, hq, rfl⟩ := hp2
    obtain ⟨hqs, hsum⟩ := lbGroups_spec today entries q hq
    obtain ⟨x, hx⟩ := Option.isSome_iff_exists.mp hqs
    rw [hx] at hsum ⊢
    simpa using hsum

/-- Witness for C5: today is ordinal 10, sampleIn (dated 9) is in window,
sampleOut is dated exactly 8 days before today. -/
theorem leaderboard_spec_witness :
    sampleOut.date = 10 - 8 ∧
    (leaderboard 10 [sampleIn] =
      leaderboard 10 ([sampleIn].filter (inLbWindow 10)) ∧
    leaderboard 10 (sampleOut :: [sampleIn]) = leaderboard 10 [sampleIn] ∧
    (leaderboard 10 [sampleIn]).Pairwise (fun p q => p.2 ≤ q.2) ∧
    (leaderboard 10 [sampleIn]).length ≤ 10 ∧
    ∀ p ∈ leaderboard 10 [sampleIn],
      p.2 = groupSum ([sampleIn].filter (inLbWindow 10)) (some p.1)) :=
  ⟨by decide, leaderboard_spec 10 [sampleIn] sampleOut (by decide)⟩

/-- An in-window entry whose alias is null (5 kg total emission). -/
def nullAliasEntry : Entry :=
  ⟨none, none, 100, "Car (Petrol)", 0, 0, 0, 0, 0, 0, 5, ""⟩

/-- C6 fails on the code: an in-window entry with a null alias is dropped
by groupby('alias') (pandas drops null group keys) before the
fillna('Anonymous') line runs, so its emission never reaches the ranked
output: the leaderboard over exactly one null-alias entry is empty instead
of [("Anonymous", 5)]. -/
theorem leaderboard_null_alias_dropped :
    lbGroups 100 [nullAliasEntry] = [] ∧
    leaderboard 100 [nullAliasEntry] = [] := by
  have h : lbGroups 100 [nullAliasEntry] = [] := by
    simp [lbGroups, lbKeys, nullAliasEntry, inLbWindow]
  exact ⟨h, by simp [leaderboard, h, fillAnonymous]⟩

end CarbonApp

namespace CarbonApp

/-- A row of the user_goals table. -/
structure GoalRow where
  user_id : Option String
  weekly_target : ℚ
  deriving Repr, DecidableEq

/-- Python truthiness of the session user_id (None and "" are falsy). -/
def truthyId : Option String → Bool
  | none => false
  | some s => !(s == "")

/-- The `current` value of page_goals_and_alerts: the SELECT only runs under
`if user_id:`; fetchone returns the first matching row; a SQL equality
comparison never matches a NULL user_id column. -/
def currentTarget (db : List GoalRow) (u : Option String) : Option ℚ :=
  if truthyId u then (db.find? (fun g => g.user_id == u)).map GoalRow.weekly_target
  else none

/-- The "Save target" button: INSERT when current is None, otherwise
UPDATE of every row whose user_id matches. -/
def saveTarget (db : List GoalRow) (u : Option String) (t : ℚ) : List GoalRow :=
  match currentTarget db u with
  | none => db ++ [⟨u, t⟩]
  | some _ => db.map (fun g => if g.user_id == u then { g with weekly_target := t } else g)

/-- A sequence of "Save target" clicks against an initially empty table. -/
def runSaves (saves : List (Option String × ℚ)) : List GoalRow :=
  saves.foldl (fun db s => saveTarget db s.1 s.2) []

lemma saveTarget_preserves_unique (db : List GoalRow) (w : Option String) (t : ℚ)
    (h : ∀ v, truthyId v = true → db.countP (fun g => g.user_id == v) ≤ 1) :
    ∀ v, truthyId v = true →
      (saveTarget db w t).countP (fun g => g.user_id == v) ≤ 1 := by
  intro v hv
  unfold saveTarget
  cases hc : currentTarget db w with
  | none =>
    rw [List.countP_append]
    by_cases hwv : w = v
    · subst hwv
      have hz : db.countP (fun g => g.user_id == w) = 0 := by
        rw [List.countP_eq_zero]
        intro g hg
        rw [currentTarget, if_pos hv] at hc
        have := List.find?_eq_none.mp (Option.map_eq_none.mp hc) g hg
        simpa using this
      simp [hz, List.countP_cons]
    · have hone : List.countP (fun g => g.user_id == v) [(⟨w, t⟩ : GoalRow)] = 0 := by
        simp [List.countP_cons, hwv]
      rw [hone]
      have hdb := h v hv
      omega
  | some _ =>
    rw [List.countP_map]
    rw [List.countP_congr ?_]
    · exact h v hv
    · intro g _
      simp only [Function.comp_apply]
      by_cases hgw : (g.user_id == w) = true
      · rw [if_pos hgw]
      · rw [if_neg hgw]

end CarbonApp

namespace CarbonApp

lemma foldSaves_unique (saves : List (Option String × ℚ)) :
    ∀ db, (∀ v, truthyId v = true → db.countP (fun g => g.user_id == v) ≤ 1) →
      ∀ v, truthyId v = true →
        ((saves.foldl (fun db s => saveTarget db s.1 s.2) db).countP
          (fun g => g.user_id == v)) ≤ 1 := by
  induction saves with
  | nil => intro db h; exact h
  | cons s rest ih =>
    intro db h
    exact ih (saveTarget db s.1 s.2) (saveTarget_preserves_unique db s.1 s.2 h)

/-- C9 (amended): for every user whose user_id is non-null and non-empty,
after any sequence of "Save target" clicks starting from an empty
user_goals table, at most one goal row with that user_id exists. -/
theorem goal_rows_at_most_one (saves : List (Option String × ℚ))
    (u : Option String) (hu : truthyId u = true) :
    (runSaves saves).countP (fun g => g.user_id == u) ≤ 1 :=
  foldSaves_unique saves [] (fun v hv => by simp) u hu

/-- Witness for C9 (amended) at user "u1" saving twice. -/
theorem goal_rows_at_most_one_witness :
    truthyId (some "u1") = true ∧
    (runSaves [(some "u1", 10), (some "u1", 12)]).countP
      (fun g => g.user_id == some "u1") ≤ 1 :=
  ⟨by rfl, goal_rows_at_most_one [(some "u1", 10), (some "u1", 12)]
    (some "u1") (by rfl)⟩

/-- C9 fails as stated for the null (anonymous/guest) user_id: the SELECT
is guarded by `if user_id:` and a SQL equality never matches NULL, so
`current` is always None and every save INSERTs; two saves leave two goal
rows for the same (null) user. -/
theorem goal_rows_duplicated_for_null_user :
    (runSaves [(none, 10), (none, 12)]).countP
      (fun g => g.user_id == (none : Option String)) = 2 := by
  rfl

end CarbonApp

namespace CarbonApp

/-- Gregorian (year, month, day) of a Python date ordinal (ordinal 1 is
0001-01-01), extending pandas' to_period("M") month extraction: standard
civil-from-days conversion on the shifted epoch 0000-03-01; Python's //
and % are floor division, hence Int.fdiv / Int.fmod. -/
def civilOfOrdinal (o : ℤ) : ℤ × ℤ × ℤ :=
  let z := o + 305
  let era := z.fdiv 146097
  let doe := z.fmod 146097
  let yoe := (doe - doe.fdiv 1460 + doe.fdiv 36524 - doe.fdiv 146096).fdiv 365
  let y := yoe + era * 400
  let doy := doe - (365 * yoe + yoe.fdiv 4 - yoe.fdiv 100)
  let mp := (5 * doy + 2).fdiv 153
  let d := doy - (153 * mp + 2).fdiv 5 + 1
  let m := mp + (if mp < 10 then 3 else -9)
  (y + (if m ≤ 2 then 1 else 0), m, d)

/-- The calendar month a date ordinal belongs to, as the linearly ordered
key year*12 + (month-1); equal keys mean same calendar month and the
numeric order is chronological. -/
def monthKey (o : ℤ) : ℤ :=
  12 * (civilOfOrdinal o).1 + ((civilOfOrdinal o).2.1 - 1)

/-- One row of df.groupby(df['date'].dt.to_period("M")).sum(): the sum of
every numeric column of the month's entries. -/
structure MonthRow where
  distance : ℚ
  electricity : ℚ
  lpg : ℚ
  transport_emission : ℚ
  electricity_emission : ℚ
  lpg_emission : ℚ
  total_emission : ℚ
  deriving Repr, DecidableEq

def sumBy (f : Entry → ℚ) (l : List Entry) : ℚ := (l.map f).sum

def monthRow (l : List Entry) : MonthRow :=
  ⟨sumBy Entry.distance l, sumBy Entry.electricity l, sumBy Entry.lpg l,
   sumBy Entry.transport_emission l, sumBy Entry.electricity_emission l,
   sumBy Entry.lpg_emission l, sumBy Entry.total_emission l⟩

/-- df.groupby(df['date'].dt.to_period("M")).sum(): group keys are the
distinct calendar months of the entries, in ascending (chronological)
order, each carrying the per-month sums. -/
def monthlyRollup (entries : List Entry) : List (ℤ × MonthRow) :=
  let keys := ((entries.map (fun e => monthKey e.date)).dedup).mergeSort
    (fun a b => decide (a ≤ b))
  keys.map (fun k => (k, monthRow (entries.filter (fun e => monthKey e.date == k))))

lemma sorted_nodup_pair (S : List ℤ) (m1 m2 : ℤ) (h12 : m1 < m2)
    (hs : S.Pairwise (fun a b : ℤ => a ≤ b)) (hn : S.Nodup)
    (h1 : m1 ∈ S) (h2 : m2 ∈ S) (hsub : ∀ x ∈ S, x = m1 ∨ x = m2) :
    S = [m1, m2] := by
  match S with
  | [] => cases h1
  | [a] =>
    simp only [List.mem_singleton] at h1 h2
    omega
  | a :: b :: rest =>
    have hab : a ≤ b := (List.pairwise_cons.mp hs).1 b (by simp)
    have hane : a ≠ b := by
      intro hc
      apply (List.nodup_cons.mp hn).1
      rw [hc]
      exact List.mem_cons_self b rest
    have ha : a = m1 ∨ a = m2 := hsub a (by simp)
    have hb : b = m1 ∨ b = m2 := hsub b (by simp)
    have ham1 : a = m1 := by omega
    have hbm2 : b = m2 := by omega
    have hrest : rest = [] := by
      rw [List.eq_nil_iff_forall_not_mem]
      intro c hc
      have hcm : c = m1 ∨ c = m2 := hsub c (by simp [hc])
      rcases hcm with hcm | hcm
      · have har : a ∈ rest := by rw [ham1, ← hcm]; exact hc
        exact (List.nodup_cons.mp hn).1 (List.mem_cons_of_mem b har)
      · have hbr : b ∈ rest := by rw [hbm2, ← hcm]; exact hc
        exact (List.nodup_cons.mp (List.nodup_cons.mp hn).2).1 hbr
    rw [ham1, hbm2, hrest]

/-- C8: when the entries span exactly the two calendar months m1 < m2, the
monthly rollup has exactly two rows, chronologically ordered, each row
summing every numeric field over only its own month's entries. -/
theorem monthlyRollup_two_months (entries : List Entry) (m1 m2 : ℤ)
    (h12 : m1 < m2)
    (hall : ∀ e ∈ entries, monthKey e.date = m1 ∨ monthKey e.date = m2)
    (h1 : ∃ e ∈ entries, monthKey e.date = m1)
    (h2 : ∃ e ∈ entries, monthKey e.date = m2) :
    monthlyRollup entries =
      [(m1, monthRow (entries.filter (fun e => monthKey e.date == m1))),
       (m2, monthRow (entries.filter (fun e => monthKey e.date == m2)))] := by
  have hperm := List.mergeSort_perm ((entries.map (fun e => monthKey e.date)).dedup)
    (fun a b => decide (a ≤ b))
  have hK : ((entries.map (fun e => monthKey e.date)).dedup).mergeSort
      (fun a b => decide (a ≤ b)) = [m1, m2] := by
    apply sorted_nodup_pair _ m1 m2 h12
    · have hs : (((entries.map (fun e => monthKey e.date)).dedup).mergeSort
          (fun a b : ℤ => decide (a ≤ b))).Pairwise
          (fun a b : ℤ => decide (a ≤ b) = true) := by
        apply List.sorted_mergeSort
        · intro a b c hab hbc
          simp only [decide_eq_true_eq] at *
          omega
        · intro a b
          simpa using le_total a b
      exact hs.imp (fun h => by simpa using h)
    · exact hperm.symm.nodup (List.nodup_dedup _)
    · rw [List.Perm.mem_iff hperm, List.mem_dedup, List.mem_map]
      obtain ⟨e, he, hm⟩ := h1
      exact ⟨e, he, hm⟩
    · rw [List.Perm.mem_iff hperm, List.mem_dedup, List.mem_map]
      obtain ⟨e, he, hm⟩ := h2
      exact ⟨e, he, hm⟩
    · intro x hx
      rw [List.Perm.mem_iff hperm, List.mem_dedup, List.mem_map] at hx
      obtain ⟨e, he, hm⟩ := hx
      exact hm ▸ hall e he
  unfold monthlyRollup
  rw [hK]
  rfl

/-- An entry dated 1970-01-01 (ordinal 719163, month key 23640). -/
def janEntry : Entry :=
  ⟨none, some "A", 719163, "Car (Petrol)", 1, 0, 0, 0, 0, 0, 3, ""⟩

/-- An entry dated 1970-02-01 (ordinal 719194, month key 23641). -/
def febEntry : Entry :=
  ⟨none, some "A", 719194, "Car (Petrol)", 2, 0, 0, 0, 0, 0, 4, ""⟩

/-- Witness for C8 at one January-1970 and one February-1970 entry. -/
theorem monthlyRollup_two_months_witness :
    (23640 : ℤ) < 23641 ∧
    (∀ e ∈ [janEntry, febEntry],
      monthKey e.date = 23640 ∨ monthKey e.date = 23641) ∧
    (∃ e ∈ [janEntry, febEntry], monthKey e.date = 23640) ∧
    (∃ e ∈ [janEntry, febEntry], monthKey e.date = 23641) ∧
    monthlyRollup [janEntry, febEntry] =
      [(23640, monthRow ([janEntry, febEntry].filter
          (fun e => monthKey e.date == 23640))),
       (23641, monthRow ([janEntry, febEntry].filter
          (fun e => monthKey e.date == 23641)))] :=
  ⟨by decide, by decide, by decide, by decide,
    monthlyRollup_two_months [janEntry, febEntry] 23640 23641
      (by decide) (by decide) (by decide) (by decide)⟩

end CarbonApp
